import Mathlib

/-!
Verification development for the download orchestration and
library-synchronization subsystem of the Spectra media-center app.

The embedding models:
* the `DownloadManager` class (src/services/downloadManager.js): the
  single-flight download coordinator keyed by video id;
* `validateVideoFile` (src/ipc/library.ts): the file-integrity validator;
* the `library-add-item` and `library-update-item` IPC handlers
  (src/ipc/library.ts) over a JS-object model of library records;
* the `BackgroundDownloadService` class (the background reconciliation
  sweep): scan/classification, the sequential drain loop and its event
  trace.

JavaScript values stored in library records are modelled by `Val`; a JS
object is a partial map from property names to values (`JObj`), with the
absent/undefined distinction collapsed (none of the code under study
distinguishes them: every read of a missing property treats it as
undefined).  Arrays are modelled only as string arrays, which suffices for
every array the modelled code constructs (the `tags` default).  JS `Map`
objects are modelled by association lists with `Map.set`, `Map.get`,
`Map.has` and `Map.delete` semantics.  Promises are modelled by handles
(`Nat`): two callers holding the same handle observe the same settlement by
construction.  The single-threaded event-loop semantics of the code lets
the drain loop be embedded as a pure recursion that records an event trace;
external capabilities (filesystem sizes, the per-item download outcome, the
file-readability check used by the scan) are oracle parameters.
-/

/-- A JavaScript value as it appears in library records and IPC payloads. -/
inductive Val where
  | str (s : String)
  | num (n : Nat)
  | boolean (b : Bool)
  | vnull
  | arrStr (xs : List String)
  deriving DecidableEq, Repr

/-- A JS object: a partial map from property names to values.  An absent
property and a property explicitly set to `undefined` are identified. -/
def JObj : Type := String → Option Val

/-- JS truthiness of a possibly-absent value: `undefined`, `null`, `false`,
`0` and `""` are falsy; everything else (arrays included) is truthy. -/
def jsTruthy : Option Val → Bool
  | none => false
  | some .vnull => false
  | some (.boolean b) => b
  | some (.num n) => n != 0
  | some (.str s) => s != ""
  | some (.arrStr _) => true

/-- Extract a string value (the `as string` casts in the handlers are only
applied to values that are strings at runtime). -/
def getStr : Option Val → String
  | some (.str s) => s
  | _ => ""

/-- Extract a numeric value, if present. -/
def getNum : Option Val → Option Nat
  | some (.num n) => some n
  | _ => none

/-- JS `a || b` on property values. -/
def jsOr (a b : Option Val) : Option Val :=
  if jsTruthy a then a else b

/-- JS object spread of `b` over `a`: properties of `b` override those of
`a`, every other property of `a` is kept. -/
def spread (a b : JObj) : JObj :=
  fun k => match b k with
    | some v => some v
    | none => a k

/-! ### JS `Map` semantics as association lists -/

/-- JS `Map.has`. -/
def mapHas (m : List (String × α)) (k : String) : Bool :=
  m.any (fun p => p.1 == k)

/-- JS `Map.get` (returning `undefined` as `none`). -/
def mapGet (m : List (String × α)) (k : String) : Option α :=
  (m.find? (fun p => p.1 == k)).map (·.2)

/-- JS `Map.set`: replace the value at an existing key, else append. -/
def mapSet (m : List (String × α)) (k : String) (v : α) : List (String × α) :=
  if mapHas m k then m.map (fun p => if p.1 == k then (k, v) else p)
  else m ++ [(k, v)]

/-- JS `Map.delete`. -/
def mapDelete (m : List (String × α)) (k : String) : List (String × α) :=
  m.filter (fun p => p.1 != k)

/-! ### Download Coordinator (src/services/downloadManager.js) -/

/-- The `status` field of a coordinator `downloadStates` entry. -/
inductive DlStatus where
  | downloading
  | completed
  | error
  | cancelled
  deriving DecidableEq, Repr

/-- One entry of the `downloadStates` diagnostic map of the coordinator. -/
structure DlInfo where
  videoId : String
  startTime : Option Nat
  endTime : Option Nat
  status : DlStatus
  result : Option Val
  error : Option Val
  deriving DecidableEq, Repr

/-- The in-memory state of `DownloadManager`: `activeDownloads` maps a video
id to the handle of the pending download promise; `downloadStates` holds
diagnostic state; `nextPromise` allocates fresh promise handles. -/
structure DMState where
  activeDownloads : List (String × Nat)
  downloadStates : List (String × DlInfo)
  nextPromise : Nat
  deriving DecidableEq, Repr

/-- Result of one `startDownload(videoId, downloadFunction)` call: the
promise handle returned to the caller, whether this call invoked
`downloadFunction`, and the coordinator state afterwards. -/
structure StartResult where
  promise : Nat
  invokedOp : Bool
  state : DMState
  deriving DecidableEq, Repr

/-- `DownloadManager.startDownload`: if a download for `videoId` is already
in `activeDownloads`, return the existing promise without invoking the
operation; otherwise record a `downloading` state, invoke the operation
(allocating a fresh promise handle for its settlement) and store the
promise in `activeDownloads`. -/
def startDownload (s : DMState) (videoId : String) (now : Nat) : StartResult :=
  match mapGet s.activeDownloads videoId with
  | some p => { promise := p, invokedOp := false, state := s }
  | none =>
    let info : DlInfo :=
      { videoId := videoId, startTime := some now, endTime := none
        status := .downloading, result := none, error := none }
    let p := s.nextPromise
    { promise := p
      invokedOp := true
      state :=
        { activeDownloads := mapSet s.activeDownloads videoId p
          downloadStates := mapSet s.downloadStates videoId info
          nextPromise := p + 1 } }

/-- Settlement of the wrapped operation, following the promise chain built
in `startDownload`: the `then` handler records a `completed` state and
returns the result unchanged; the `catch` handler records an `error` state
and rethrows the error unchanged; the `finally` handler removes the
`activeDownloads` marker.  The first component is the settlement delivered
to every holder of the download promise. -/
def settleDownload (s : DMState) (videoId : String) (now : Nat)
    (outcome : Except Val Val) : Except Val Val × DMState :=
  match outcome with
  | .ok r =>
    let info : DlInfo :=
      { videoId := videoId
        startTime := (mapGet s.downloadStates videoId).bind (·.startTime)
        endTime := some now, status := .completed
        result := some r, error := none }
    (.ok r,
      { s with
          downloadStates := mapSet s.downloadStates videoId info
          activeDownloads := mapDelete s.activeDownloads videoId })
  | .error e =>
    let info : DlInfo :=
      { videoId := videoId
        startTime := (mapGet s.downloadStates videoId).bind (·.startTime)
        endTime := some now, status := .error
        result := none, error := some e }
    (.error e,
      { s with
          downloadStates := mapSet s.downloadStates videoId info
          activeDownloads := mapDelete s.activeDownloads videoId })

/-! ### File Integrity Validator (src/ipc/library.ts, `validateVideoFile`) -/

/-- `validateVideoFile(filePath, expectedSize?)`.  The filesystem is
abstracted as `fsSize : String → Option Nat`, the size of an existing file
(`none` when `fs.existsSync` is false or `statSync` would throw).  The JS
relative-deviation test `Math.abs(size - expected) / expected > 0.05` is
modelled by the exact rational inequality `20 * |size - expected| >
expected`; for the integer sizes at issue the double-precision and the
exact comparison agree. -/
def validateVideoFile (fsSize : String → Option Nat) (filePath : String)
    (expectedSize : Option Nat) : Bool :=
  match fsSize filePath with
  | none => false
  | some size =>
    if size < 1024 * 1024 then false
    else
      match expectedSize with
      | some e =>
        if e > 0 then
          if 20 * (max size e - min size e) > e then false else true
        else true
      | none => true

/-! ### Library IPC handlers (src/ipc/library.ts) -/

/-- Result payload of the `library-add-item` handler. -/
structure AddResult where
  success : Bool
  item : Option JObj
  message : Option String

/-- The library record built by the `library-add-item` handler from the
incoming `item`: the object literal spreads `item` first and then writes
the explicit properties, which therefore override the incoming ones.  The
initial `downloadStatus` is `completed` when a file path is supplied and
`validateVideoFile` accepts it, `failed` when a file path is supplied but
rejected, and `pending` when no file path is supplied. -/
def buildLibraryItem (item : JObj) (newId nowIso : String)
    (fsSize : String → Option Nat) : JObj :=
  let fileValid := jsTruthy (item "filePath")
      && validateVideoFile fsSize (getStr (item "filePath")) (getNum (item "fileSize"))
  fun k =>
    if k == "id" then some (.str newId)
    else if k == "dateAdded" then some (.str nowIso)
    else if k == "type" then jsOr (item "type") (some (.str "video"))
    else if k == "tags" then jsOr (item "tags") (some (.arrStr []))
    else if k == "isFavorite" then some (.boolean false)
    else if k == "playCount" then some (.num 0)
    else if k == "lastPlayed" then some .vnull
    else if k == "videoId" then jsOr (item "videoId") (some (.str ""))
    else if k == "title" then jsOr (item "title") (some (.str "Unknown Title"))
    else if k == "downloadStatus" then
      some (.str (if fileValid then "completed"
        else if jsTruthy (item "filePath") then "failed" else "pending"))
    else if k == "downloadStarted" then item "downloadStarted"
    else if k == "downloadCompleted" then
      (if fileValid then jsOr (item "downloadCompleted") (some (.str nowIso))
       else none)
    else if k == "fileSize" then item "fileSize"
    else item k

/-- The `library-add-item` handler: reject when some stored record matches
the incoming one by `videoId` or by `filePath` (strict JS equality, under
which two absent properties compare equal), else append the built record. -/
def libraryAddItem (library : List JObj) (item : JObj) (newId nowIso : String)
    (fsSize : String → Option Nat) : AddResult × List JObj :=
  if library.any (fun ex =>
      ex "videoId" == item "videoId" || ex "filePath" == item "filePath") then
    ({ success := false, item := none
       message := some "Item already exists in library" }, library)
  else
    let libraryItem := buildLibraryItem item newId nowIso fsSize
    ({ success := true, item := some libraryItem, message := none },
      library ++ [libraryItem])

/-- Result payload of the `library-update-item` handler. -/
structure UpdResult where
  success : Bool
  item : Option JObj
  message : Option String

/-- The `findIndex` predicate of the `library-update-item` handler. -/
def idMatches (itemId : String) (it : JObj) : Bool :=
  it "id" == some (.str itemId)

/-- The `library-update-item` handler: find the first record whose `id`
matches, replace it by the spread of the updates over it, and return the
merged record; when no record matches, report failure and leave the
library unchanged. -/
def libraryUpdateItem : List JObj → String → JObj → UpdResult × List JObj
  | [], _, _ =>
    ({ success := false, item := none
       message := some "Item not found in library" }, [])
  | it :: rest, itemId, updates =>
    if idMatches itemId it then
      let merged := spread it updates
      ({ success := true, item := some merged, message := none },
        merged :: rest)
    else
      let res := libraryUpdateItem rest itemId updates
      (res.1, it :: res.2)

/-! ### Background Download Service (the reconciliation sweep) -/

/-- Observable events of a sweep, in program order: invocation and
settlement of the wrapped download operation, each library write that
carries a `downloadStatus` value, per-item completion callbacks, progress
callbacks, the fixed inter-item delay, and the final completion callback. -/
inductive Ev where
  | start (videoId : String)
  | settle (videoId : String)
  | statusWrite (id : String) (status : String)
  | itemDone (id : String) (status : String)
  | progress (completed failed remaining total : Nat)
  | delayEv (ms : Nat)
  | completeEvent (completed failed total : Nat)
  deriving DecidableEq, Repr

/-- The fields of a successful `downloadVideo` result that the sweep reads. -/
structure DlOk where
  filePath : String
  fileName : String
  fileSize : Option Nat
  downloadCompleted : Option String
  deriving DecidableEq, Repr

/-- Oracle for the outcome of one `downloadVideo` invocation: resolution
with `success: true`, resolution with `success: false`, or rejection. -/
inductive DLOutcome where
  | ok (r : DlOk)
  | fail
  | reject
  deriving Repr

/-- The mutable state of `BackgroundDownloadService`. -/
structure BDSState where
  downloadQueue : List JObj
  isProcessing : Bool
  currentDownload : Option JObj
  completedDownloads : Nat
  failedDownloads : Nat
  totalDownloads : Nat

/-- The `id` property of a queue item, as passed to `libraryUpdateItem`. -/
def idOf (item : JObj) : String := getStr (item "id")

/-- The `videoId` property of a queue item, as passed to `downloadVideo`. -/
def vidOf (item : JObj) : String := getStr (item "videoId")

/-- The update payload marking a download as started. -/
def updDownloading (nowIso : String) : JObj := fun k =>
  if k == "downloadStatus" then some (.str "downloading")
  else if k == "downloadStarted" then some (.str nowIso)
  else none

/-- The update payload written after a successful download. -/
def updCompleted (r : DlOk) (nowIso : String) : JObj := fun k =>
  if k == "filePath" then some (.str r.filePath)
  else if k == "fileName" then some (.str r.fileName)
  else if k == "fileSize" then r.fileSize.map .num
  else if k == "downloadStatus" then some (.str "completed")
  else if k == "downloadCompleted" then some (.str (r.downloadCompleted.getD nowIso))
  else none

/-- The update payload written after a failed download. -/
def updFailed : JObj := fun k =>
  if k == "downloadStatus" then some (.str "failed") else none

/-- One iteration of the `processQueue` while loop, for the item just
shifted off the queue (`rest` is the remaining queue).  Returns the library
store, the service state and the events of this iteration, in program
order: progress callback, the `downloading` write, invocation and
settlement of `downloadVideo`, the terminal write(s) driven by the outcome
(a successful download whose library update fails is counted as failed and
additionally marked `failed`), the per-item callback, the second progress
callback, and the fixed 1000 ms delay. -/
def drainStep (store : List JObj) (s : BDSState) (item : JObj)
    (rest : List JObj) (out : DLOutcome) (nowIso : String) :
    List JObj × BDSState × List Ev :=
  let s0 : BDSState := { s with currentDownload := some item, downloadQueue := rest }
  let ev0 := Ev.progress s0.completedDownloads s0.failedDownloads rest.length s0.totalDownloads
  let store1 := (libraryUpdateItem store (idOf item) (updDownloading nowIso)).2
  let evs1 := [ev0, Ev.statusWrite (idOf item) "downloading",
    Ev.start (vidOf item), Ev.settle (vidOf item)]
  match out with
  | .ok r =>
    let u := libraryUpdateItem store1 (idOf item) (updCompleted r nowIso)
    if u.1.success then
      let s1 := { s0 with completedDownloads := s0.completedDownloads + 1
                          currentDownload := none }
      (u.2, s1, evs1 ++
        [Ev.statusWrite (idOf item) "completed",
         Ev.itemDone (idOf item) "completed",
         Ev.progress s1.completedDownloads s1.failedDownloads rest.length s1.totalDownloads,
         Ev.delayEv 1000])
    else
      let store3 := (libraryUpdateItem u.2 (idOf item) updFailed).2
      let s1 := { s0 with failedDownloads := s0.failedDownloads + 1
                          currentDownload := none }
      (store3, s1, evs1 ++
        [Ev.statusWrite (idOf item) "completed",
         Ev.statusWrite (idOf item) "failed",
         Ev.itemDone (idOf item) "failed",
         Ev.progress s1.completedDownloads s1.failedDownloads rest.length s1.totalDownloads,
         Ev.delayEv 1000])
  | .fail =>
    let store2 := (libraryUpdateItem store1 (idOf item) updFailed).2
    let s1 := { s0 with failedDownloads := s0.failedDownloads + 1
                        currentDownload := none }
    (store2, s1, evs1 ++
      [Ev.statusWrite (idOf item) "failed",
       Ev.itemDone (idOf item) "failed",
       Ev.progress s1.completedDownloads s1.failedDownloads rest.length s1.totalDownloads,
       Ev.delayEv 1000])
  | .reject =>
    let store2 := (libraryUpdateItem store1 (idOf item) updFailed).2
    let s1 := { s0 with failedDownloads := s0.failedDownloads + 1
                        currentDownload := none }
    (store2, s1, evs1 ++
      [Ev.statusWrite (idOf item) "failed",
       Ev.itemDone (idOf item) "failed",
       Ev.progress s1.completedDownloads s1.failedDownloads rest.length s1.totalDownloads,
       Ev.delayEv 1000])

/-- The `processQueue` while loop over the queue, consuming one outcome of
`outs` per item; on exhaustion the `isProcessing` flag is cleared and the
final completion callback fires with the aggregate counters. -/
def drainLoop (nowIso : String) :
    List JObj → List DLOutcome → List JObj → BDSState →
    List JObj × BDSState × List Ev
  | [], _, store, s =>
    (store, { s with isProcessing := false },
      [Ev.completeEvent s.completedDownloads s.failedDownloads s.totalDownloads])
  | item :: rest, outs, store, s =>
    let step := drainStep store s item rest (outs.headD .reject) nowIso
    let res := drainLoop nowIso rest outs.tail step.1 step.2.1
    (res.1, res.2.1, step.2.2 ++ res.2.2)

/-- `BackgroundDownloadService.processQueue`: return immediately when a
drain is already running or the queue is empty, else set `isProcessing` and
drain the queue sequentially. -/
def processQueue (store : List JObj) (s : BDSState) (outs : List DLOutcome)
    (nowIso : String) : List JObj × BDSState × List Ev :=
  if s.isProcessing || s.downloadQueue.isEmpty then (store, s, [])
  else drainLoop nowIso s.downloadQueue outs store { s with isProcessing := true }

/-- The per-item classification of `startBackgroundDownloads`, evaluated
inside the `if (item.videoId)` guard: needs download when the download
status is `failed`, `downloading` or `pending`; else when no file path is
present; else when the file check (`getVideoBlob`, abstracted as `fileOk`)
fails or throws on the stored path. -/
def needsDownload (fileOk : String → Bool) (item : JObj) : Bool :=
  if item "downloadStatus" == some (.str "failed")
      || item "downloadStatus" == some (.str "downloading")
      || item "downloadStatus" == some (.str "pending") then true
  else if !jsTruthy (item "filePath") then true
  else !fileOk (getStr (item "filePath"))

/-- The `missingVideos` list collected by the scan, in original order. -/
def collectMissingVideos (fileOk : String → Bool)
    (libraryItems : List JObj) : List JObj :=
  libraryItems.filter (fun item => jsTruthy (item "videoId") && needsDownload fileOk item)

/-- Classification as the specification states it: an item needs download
exactly when it has a (truthy) media id and at least one of the following
holds: its download status is `failed`, `downloading` or `pending`; its
file path is absent; or the file check rejects the existing file path.
Written from the specification text, to be compared with the code-side
`needsDownload`. -/
def needsDownloadSpec (fileOk : String → Bool) (item : JObj) : Bool :=
  jsTruthy (item "videoId")
  && ((item "downloadStatus" == some (.str "failed")
      || item "downloadStatus" == some (.str "downloading")
      || item "downloadStatus" == some (.str "pending"))
    || !jsTruthy (item "filePath")
    || !fileOk (getStr (item "filePath")))

/-- Result of one `startBackgroundDownloads` call up to (and excluding) its
final `processQueue` invocation: the service state afterwards, the events
emitted by the scan itself, and whether `processQueue` was invoked. -/
structure ScanOutcome where
  state : BDSState
  events : List Ev
  processQueueCalled : Bool

/-- `BackgroundDownloadService.startBackgroundDownloads`: scan the library,
collect the items needing download; when none, fire the completion callback
with zero counts and stop; otherwise overwrite the queue, reset the
counters, fire a progress callback, and invoke `processQueue`.  The scan
performs no `isProcessing` check of its own. -/
def startBackgroundDownloads (s : BDSState) (fileOk : String → Bool)
    (libraryItems : List JObj) : ScanOutcome :=
  let missing := collectMissingVideos fileOk libraryItems
  if missing.isEmpty then
    { state := s, events := [Ev.completeEvent 0 0 0], processQueueCalled := false }
  else
    let s1 : BDSState :=
      { s with downloadQueue := missing, totalDownloads := missing.length
               completedDownloads := 0, failedDownloads := 0 }
    { state := s1
      events := [Ev.progress 0 0 missing.length missing.length]
      processQueueCalled := true }

/-- A full `startBackgroundDownloads` call including the `processQueue`
invocation it ends with. -/
def startSweep (store : List JObj) (s : BDSState) (fileOk : String → Bool)
    (libraryItems : List JObj) (outs : List DLOutcome) (nowIso : String) :
    List JObj × BDSState × List Ev :=
  let scan := startBackgroundDownloads s fileOk libraryItems
  if scan.processQueueCalled then
    let res := processQueue store scan.state outs nowIso
    (res.1, res.2.1, scan.events ++ res.2.2)
  else (store, scan.state, scan.events)

/-! ### Trace observables used by the theorems -/

/-- The events that describe the lifetime of the wrapped download
operations: invocation, settlement and the inter-item delay. -/
def isCoreEv : Ev → Bool
  | .start _ => true
  | .settle _ => true
  | .delayEv _ => true
  | _ => false

/-- The core events one queue item contributes to the drain trace. -/
def coreBlock (item : JObj) : List Ev :=
  [.start (vidOf item), .settle (vidOf item), .delayEv 1000]

/-- `flightBound evs n = true` when, reading `evs` left to right starting
with `n` operations in flight, operations start only while none is in
flight and settle only while one is: at most one wrapped operation is ever
in flight, and each settles before the next starts. -/
def flightBound : List Ev → Nat → Bool
  | [], _ => true
  | (.start _) :: rest, n => n == 0 && flightBound rest 1
  | (.settle _) :: rest, n => n == 1 && flightBound rest 0
  | _ :: rest, n => flightBound rest n

/-- Projection of the `downloadStatus` values written to the store, in
order, from a trace. -/
def statusWrites (evs : List Ev) : List (String × String) :=
  evs.filterMap (fun e => match e with
    | .statusWrite i st => some (i, st)
    | _ => none)

/-! ### Helper lemmas -/

theorem spread_of_updated (a b : JObj) (k : String) (v : Val)
    (h : b k = some v) : spread a b k = some v := by
  simp [spread, h]

theorem spread_of_not_updated (a b : JObj) (k : String)
    (h : b k = none) : spread a b k = a k := by
  simp [spread, h]

theorem mapGet_mapSet_self (m : List (String × α)) (k : String) (v : α) :
    mapGet (mapSet m k v) k = some v := by
  unfold mapSet
  by_cases h : mapHas m k
  · simp only [h, if_true]
    induction m with
    | nil => simp [mapHas] at h
    | cons p rest ih =>
      by_cases hp : (p.1 == k) = true
      · simp [mapGet, List.find?, hp]
      · have hrest : mapHas rest k = true := by
          simpa [mapHas, List.any_cons, hp] using h
        have hres := ih hrest
        simp only [Bool.not_eq_true] at hp
        simpa [mapGet, List.find?, hp] using hres
  · simp only [h, if_false]
    have hnone : ∀ p ∈ m, (p.1 == k) = false := by
      intro p hp
      by_contra hpk
      simp only [Bool.not_eq_false] at hpk
      exact h (List.any_eq_true.mpr ⟨p, hp, hpk⟩)
    clear h
    induction m with
    | nil => simp [mapGet, List.find?]
    | cons p rest ih =>
      have hp := hnone p (by simp)
      simp only [List.cons_append, mapGet, List.find?, hp]
      exact ih (fun q hq => hnone q (by simp [hq]))

/-! ### C1 and C9: the Download Coordinator -/

/-- C1: when `startDownload` is called for a media id with no operation in
flight and then called again for the same id while that operation is still
in flight, the underlying operation is invoked exactly once across the two
calls (by the first, not the second), both callers receive the same pending
promise — hence the identical settlement, result or error — and the second
call leaves the coordinator state untouched. -/
theorem c1_single_flight (s : DMState) (videoId : String) (t1 t2 : Nat)
    (h : mapGet s.activeDownloads videoId = none) :
    (startDownload s videoId t1).invokedOp = true
    ∧ (startDownload (startDownload s videoId t1).state videoId t2).invokedOp = false
    ∧ (startDownload (startDownload s videoId t1).state videoId t2).promise
        = (startDownload s videoId t1).promise
    ∧ (startDownload (startDownload s videoId t1).state videoId t2).state
        = (startDownload s videoId t1).state := by
  simp [startDownload, h, mapGet_mapSet_self]

/-- Witness for C1 at a concrete coordinator state. -/
theorem c1_single_flight_witness :
    (startDownload (DMState.mk [] [] 0) "abc" 5).invokedOp = true
    ∧ (startDownload (startDownload (DMState.mk [] [] 0) "abc" 5).state "abc" 9).invokedOp
        = false
    ∧ (startDownload (startDownload (DMState.mk [] [] 0) "abc" 5).state "abc" 9).promise
        = (startDownload (DMState.mk [] [] 0) "abc" 5).promise
    ∧ (startDownload (startDownload (DMState.mk [] [] 0) "abc" 5).state "abc" 9).state
        = (startDownload (DMState.mk [] [] 0) "abc" 5).state :=
  c1_single_flight (DMState.mk [] [] 0) "abc" 5 9 (by decide)

/-- C9: the settlement the coordinator delivers to every holder of the
download promise is exactly the outcome of the wrapped operation — the
result object on resolution, the error on rejection — passed through
unchanged by the `then`/`catch`/`finally` chain of `startDownload`. -/
theorem c9_outcome_passthrough (s : DMState) (videoId : String) (now : Nat)
    (outcome : Except Val Val) :
    (settleDownload s videoId now outcome).1 = outcome := by
  cases outcome <;> rfl

/-! ### C5: the File Integrity Validator -/

/-- C5 counterexample: a file at 94 percent of the expected size (94 MiB
against an expected 100 MiB, well above the 1 MiB floor) is rejected by
`validateVideoFile` — its deviation of 6 percent exceeds the 5 percent
tolerance — contradicting the claim that a file at 94 percent of the
expected size passes. -/
theorem c5_validator_counterexample :
    validateVideoFile (fun p => if p == "v.mp4" then some 98566144 else none)
      "v.mp4" (some 104857600) = false := by decide

/-- C5 as amended: the validator returns false when the path does not
exist and when the file is below the 1 MiB floor (a 500 KiB file fails
regardless of expected size); with a positive expected size, a file of
exactly the expected size passes, a file at 95 percent of the expected
size passes, and files at 94 percent or 90 percent of the expected size
fail; with no size deviation beyond tolerance and no floor violation it
returns true. -/
theorem c5_validator_tolerance :
    (∀ (fsSize : String → Option Nat) (p : String) (eo : Option Nat),
      fsSize p = none → validateVideoFile fsSize p eo = false)
    ∧ (∀ (fsSize : String → Option Nat) (p : String) (eo : Option Nat) (sz : Nat),
      fsSize p = some sz → sz < 1048576 → validateVideoFile fsSize p eo = false)
    ∧ (∀ (fsSize : String → Option Nat) (p : String) (e : Nat),
      fsSize p = some e → 1048576 ≤ e → validateVideoFile fsSize p (some e) = true)
    ∧ (∀ (fsSize : String → Option Nat) (p : String) (e sz : Nat),
      fsSize p = some sz → 1048576 ≤ sz → 20 * sz = 19 * e →
        validateVideoFile fsSize p (some e) = true)
    ∧ (∀ (fsSize : String → Option Nat) (p : String) (e sz : Nat),
      fsSize p = some sz → 0 < e → 50 * sz = 47 * e →
        validateVideoFile fsSize p (some e) = false)
    ∧ (∀ (fsSize : String → Option Nat) (p : String) (e sz : Nat),
      fsSize p = some sz → 0 < e → 10 * sz = 9 * e →
        validateVideoFile fsSize p (some e) = false)
    ∧ (∀ (fsSize : String → Option Nat) (p : String) (sz : Nat),
      fsSize p = some sz → 1048576 ≤ sz → validateVideoFile fsSize p none = true) := by
  refine ⟨?_, ?_, ?_, ?_, ?_, ?_, ?_⟩
  · intro fsSize p eo h
    simp [validateVideoFile, h]
  · intro fsSize p eo sz h hlt
    have hlt2 : sz < 1024 * 1024 := by omega
    simp [validateVideoFile, h, hlt2]
  · intro fsSize p e h hge
    have hnlt : ¬ e < 1024 * 1024 := by omega
    have hpos : 0 < e := by omega
    simp [validateVideoFile, h, hnlt, hpos]
  · intro fsSize p e sz h hge heq
    have hnlt : ¬ sz < 1024 * 1024 := by omega
    have hsle : sz ≤ e := by omega
    have hpos : 0 < e := by omega
    have hmax : max sz e = e := Nat.max_eq_right hsle
    have hmin : min sz e = sz := Nat.min_eq_left hsle
    have hno : ¬ 20 * (max sz e - min sz e) > e := by
      rw [hmax, hmin]; omega
    simp [validateVideoFile, h, hnlt, hpos, hno]
  · intro fsSize p e sz h hpos heq
    by_cases hfloor : sz < 1024 * 1024
    · simp [validateVideoFile, h, hfloor]
    · have hsle : sz ≤ e := by omega
      have hmax : max sz e = e := Nat.max_eq_right hsle
      have hmin : min sz e = sz := Nat.min_eq_left hsle
      have hyes : 20 * (max sz e - min sz e) > e := by
        rw [hmax, hmin]; omega
      simp [validateVideoFile, h, hfloor, hpos, hyes]
  · intro fsSize p e sz h hpos heq
    by_cases hfloor : sz < 1024 * 1024
    · simp [validateVideoFile, h, hfloor]
    · have hsle : sz ≤ e := by omega
      have hmax : max sz e = e := Nat.max_eq_right hsle
      have hmin : min sz e = sz := Nat.min_eq_left hsle
      have hyes : 20 * (max sz e - min sz e) > e := by
        rw [hmax, hmin]; omega
      simp [validateVideoFile, h, hfloor, hpos, hyes]
  · intro fsSize p sz h hge
    have hnlt : ¬ sz < 1024 * 1024 := by omega
    simp [validateVideoFile, h, hnlt]

/-- Witness for the amended C5 at concrete sizes: a missing path fails, a
500 KiB file fails against a 100 MiB expectation, an exact-size 100 MiB
file passes, a 95 MiB file against 100 MiB passes, and a 90 MiB file
against 100 MiB fails. -/
theorem c5_validator_tolerance_witness :
    validateVideoFile (fun _ => none) "x.mp4" none = false
    ∧ validateVideoFile (fun _ => some 512000) "x.mp4" (some 104857600) = false
    ∧ validateVideoFile (fun _ => some 104857600) "x.mp4" (some 104857600) = true
    ∧ validateVideoFile (fun _ => some 99614720) "x.mp4" (some 104857600) = true
    ∧ validateVideoFile (fun _ => some 94371840) "x.mp4" (some 104857600) = false :=
  ⟨c5_validator_tolerance.1 (fun _ => none) "x.mp4" none rfl,
   c5_validator_tolerance.2.1 (fun _ => some 512000) "x.mp4" (some 104857600) 512000
     rfl (by norm_num),
   c5_validator_tolerance.2.2.1 (fun _ => some 104857600) "x.mp4" 104857600
     rfl (by norm_num),
   c5_validator_tolerance.2.2.2.1 (fun _ => some 99614720) "x.mp4" 104857600 99614720
     rfl (by norm_num) (by norm_num),
   c5_validator_tolerance.2.2.2.2.2.1 (fun _ => some 94371840) "x.mp4" 104857600 94371840
     rfl (by norm_num) (by norm_num)⟩

/-! ### C8: duplicate-add rejection -/

/-- C8: adding a library item whose `videoId` matches an item already in
the store returns failure and leaves the stored library unchanged. -/
theorem c8_duplicate_add (library : List JObj) (item : JObj)
    (newId nowIso : String) (fsSize : String → Option Nat)
    (h : library.any (fun ex => ex "videoId" == item "videoId") = true) :
    (libraryAddItem library item newId nowIso fsSize).1.success = false
    ∧ (libraryAddItem library item newId nowIso fsSize).2 = library := by
  have hdup : library.any (fun ex =>
      ex "videoId" == item "videoId" || ex "filePath" == item "filePath") = true := by
    rcases List.any_eq_true.mp h with ⟨ex, hex, hv⟩
    exact List.any_eq_true.mpr ⟨ex, hex, by simp [hv]⟩
  simp [libraryAddItem, hdup]

/-- Witness for C8: a one-item store and an incoming item with the same
video id. -/
theorem c8_duplicate_add_witness :
    (libraryAddItem [fun k => if k == "videoId" then some (.str "v1") else none]
      (fun k => if k == "videoId" then some (.str "v1") else none)
      "id2" "2024-01-01T00:00:00.000Z" (fun _ => none)).1.success = false
    ∧ (libraryAddItem [fun k => if k == "videoId" then some (.str "v1") else none]
      (fun k => if k == "videoId" then some (.str "v1") else none)
      "id2" "2024-01-01T00:00:00.000Z" (fun _ => none)).2
        = [fun k => if k == "videoId" then some (.str "v1") else none] :=
  c8_duplicate_add [fun k => if k == "videoId" then some (.str "v1") else none]
    (fun k => if k == "videoId" then some (.str "v1") else none)
    "id2" "2024-01-01T00:00:00.000Z" (fun _ => none) (by decide)

/-! ### C10: the library update handler -/

theorem libraryUpdateItem_found (itemId : String) (updates : JObj) :
    ∀ (library : List JObj) (hi : library.findIdx (idMatches itemId) < library.length),
      libraryUpdateItem library itemId updates =
        ({ success := true
           item := some (spread (library.get ⟨library.findIdx (idMatches itemId), hi⟩) updates)
           message := none },
         library.set (library.findIdx (idMatches itemId))
           (spread (library.get ⟨library.findIdx (idMatches itemId), hi⟩) updates)) := by
  intro library
  induction library with
  | nil => intro hi; simp at hi
  | cons it rest ih =>
    intro hi
    by_cases h : idMatches itemId it
    · simp [libraryUpdateItem, h, List.findIdx_cons]
    · have hb : idMatches itemId it = false := by
        simpa using h
      have hlt : rest.findIdx (idMatches itemId) < rest.length := by
        have hx := hi
        rw [List.findIdx_cons, hb] at hx
        simp only [cond_false, List.length_cons] at hx
        omega
      have hrec := ih hlt
      simp [libraryUpdateItem, hb, List.findIdx_cons, hrec]

/-- C10: when some record in the store has the requested id, the update
handler merges exactly the supplied fields into the first matching record:
each supplied property takes the new value, each property not named in the
updates keeps its previous value, every other record in the store is
unchanged, and the handler returns success together with the merged
record. -/
theorem c10_update_merges_only_supplied (library : List JObj) (itemId : String)
    (updates : JObj)
    (hi : library.findIdx (idMatches itemId) < library.length) :
    ((libraryUpdateItem library itemId updates).1.success = true)
    ∧ ((libraryUpdateItem library itemId updates).1.item
        = some (spread (library.get ⟨library.findIdx (idMatches itemId), hi⟩) updates))
    ∧ (∀ k, updates k = none →
        spread (library.get ⟨library.findIdx (idMatches itemId), hi⟩) updates k
          = library.get ⟨library.findIdx (idMatches itemId), hi⟩ k)
    ∧ (∀ k v, updates k = some v →
        spread (library.get ⟨library.findIdx (idMatches itemId), hi⟩) updates k = some v)
    ∧ ((libraryUpdateItem library itemId updates).2
        = library.set (library.findIdx (idMatches itemId))
            (spread (library.get ⟨library.findIdx (idMatches itemId), hi⟩) updates))
    ∧ (∀ j, j ≠ library.findIdx (idMatches itemId) →
        (libraryUpdateItem library itemId updates).2[j]? = library[j]?) := by
  rw [libraryUpdateItem_found itemId updates library hi]
  refine ⟨rfl, rfl, ?_, ?_, rfl, ?_⟩
  · intro k hk
    exact spread_of_not_updated _ _ _ hk
  · intro k v hk
    exact spread_of_updated _ _ _ _ hk
  · intro j hj
    exact List.getElem?_set_ne (fun he => hj he.symm)

/-- Witness for C10: a two-record store, updating the title of the first
record; the update succeeds and the second record is untouched. -/
theorem c10_update_merges_only_supplied_witness :
    ((libraryUpdateItem
        [fun k => if k == "id" then some (.str "a") else some (.str "oldval"),
         fun k => if k == "id" then some (.str "b") else none]
        "a" (fun k => if k == "title" then some (.str "T2") else none)).1.success = true)
    ∧ ((libraryUpdateItem
        [fun k => if k == "id" then some (.str "a") else some (.str "oldval"),
         fun k => if k == "id" then some (.str "b") else none]
        "a" (fun k => if k == "title" then some (.str "T2") else none)).2[1]?
      = [fun k => if k == "id" then some (.str "a") else some (.str "oldval"),
         fun k => if k == "id" then some (.str "b") else none][1]?) := by
  have h := c10_update_merges_only_supplied
    [fun k => if k == "id" then some (.str "a") else some (.str "oldval"),
     fun k => if k == "id" then some (.str "b") else none]
    "a" (fun k => if k == "title" then some (.str "T2") else none) (by decide)
  exact ⟨h.1, h.2.2.2.2.2 1 (by decide)⟩

/-! ### Drain-loop lemmas -/

theorem drainStep_filter_core (store : List JObj) (s : BDSState) (item : JObj)
    (rest : List JObj) (out : DLOutcome) (nowIso : String) :
    (drainStep store s item rest out nowIso).2.2.filter isCoreEv = coreBlock item := by
  cases out with
  | ok r =>
    simp only [drainStep]
    split <;> simp [isCoreEv, coreBlock]
  | fail => simp [drainStep, isCoreEv, coreBlock]
  | reject => simp [drainStep, isCoreEv, coreBlock]

theorem drainStep_flightBound (store : List JObj) (s : BDSState) (item : JObj)
    (rest : List JObj) (out : DLOutcome) (nowIso : String) (tail : List Ev) :
    flightBound ((drainStep store s item rest out nowIso).2.2 ++ tail) 0
      = flightBound tail 0 := by
  cases out with
  | ok r =>
    simp only [drainStep]
    split <;> simp [flightBound]
  | fail => simp [drainStep, flightBound]
  | reject => simp [drainStep, flightBound]

theorem drainStep_counters (store : List JObj) (s : BDSState) (item : JObj)
    (rest : List JObj) (out : DLOutcome) (nowIso : String) :
    ((drainStep store s item rest out nowIso).2.1.completedDownloads
      + (drainStep store s item rest out nowIso).2.1.failedDownloads
      = s.completedDownloads + s.failedDownloads + 1)
    ∧ (drainStep store s item rest out nowIso).2.1.totalDownloads
        = s.totalDownloads := by
  cases out with
  | ok r =>
    simp only [drainStep]
    split <;> exact ⟨by simp; omega, by simp⟩
  | fail => exact ⟨by simp [drainStep]; omega, by simp [drainStep]⟩
  | reject => exact ⟨by simp [drainStep]; omega, by simp [drainStep]⟩

theorem drainLoop_spec (nowIso : String) :
    ∀ (queue : List JObj) (outs : List DLOutcome) (store : List JObj) (s : BDSState),
      ((drainLoop nowIso queue outs store s).2.2.filter isCoreEv
          = queue.flatMap coreBlock)
      ∧ (flightBound (drainLoop nowIso queue outs store s).2.2 0 = true)
      ∧ ((drainLoop nowIso queue outs store s).2.1.completedDownloads
          + (drainLoop nowIso queue outs store s).2.1.failedDownloads
          = s.completedDownloads + s.failedDownloads + queue.length)
      ∧ ((drainLoop nowIso queue outs store s).2.1.totalDownloads = s.totalDownloads)
      ∧ ((drainLoop nowIso queue outs store s).2.1.isProcessing = false)
      ∧ (∃ pre, (drainLoop nowIso queue outs store s).2.2
          = pre ++ [Ev.completeEvent
              (drainLoop nowIso queue outs store s).2.1.completedDownloads
              (drainLoop nowIso queue outs store s).2.1.failedDownloads
              (drainLoop nowIso queue outs store s).2.1.totalDownloads]) := by
  intro queue
  induction queue with
  | nil =>
    intro outs store s
    refine ⟨?_, ?_, ?_, ?_, ?_, ⟨[], ?_⟩⟩ <;>
      simp [drainLoop, isCoreEv, flightBound]
  | cons item rest ih =>
    intro outs store s
    have hunfold : drainLoop nowIso (item :: rest) outs store s
        = ((drainLoop nowIso rest outs.tail
              (drainStep store s item rest (outs.headD .reject) nowIso).1
              (drainStep store s item rest (outs.headD .reject) nowIso).2.1).1,
           (drainLoop nowIso rest outs.tail
              (drainStep store s item rest (outs.headD .reject) nowIso).1
              (drainStep store s item rest (outs.headD .reject) nowIso).2.1).2.1,
           (drainStep store s item rest (outs.headD .reject) nowIso).2.2
             ++ (drainLoop nowIso rest outs.tail
                  (drainStep store s item rest (outs.headD .reject) nowIso).1
                  (drainStep store s item rest (outs.headD .reject) nowIso).2.1).2.2) := rfl
    obtain ⟨ih1, ih2, ih3, ih4, ih5, pre, ih6⟩ :=
      ih outs.tail (drainStep store s item rest (outs.headD .reject) nowIso).1
        (drainStep store s item rest (outs.headD .reject) nowIso).2.1
    obtain ⟨hc1, hc2⟩ := drainStep_counters store s item rest (outs.headD .reject) nowIso
    rw [hunfold]
    refine ⟨?_, ?_, ?_, ?_, ?_, ?_⟩
    · simp only [List.filter_append]
      rw [drainStep_filter_core, ih1, List.flatMap_cons]
    · rw [drainStep_flightBound]
      exact ih2
    · simp only [List.length_cons]
      omega
    · rw [ih4, hc2]
    · exact ih5
    · exact ⟨(drainStep store s item rest (outs.headD .reject) nowIso).2.2 ++ pre,
        by rw [ih6, List.append_assoc]⟩

/-! ### C2: sequential drain -/

/-- C2: when a drain is started on the current queue (none already
running), the trace of download-operation events is exactly, in order, one
block per queued item in scan order — invocation, settlement, then the
fixed 1000 ms delay — so item K+1 starts only after item K has settled and
the delay has elapsed; moreover the whole trace keeps at most one wrapped
operation in flight at any point (`flightBound`). -/
theorem c2_sequential_drain (store : List JObj) (s : BDSState)
    (outs : List DLOutcome) (nowIso : String)
    (h : s.isProcessing = false) :
    ((processQueue store s outs nowIso).2.2.filter isCoreEv
      = s.downloadQueue.flatMap coreBlock)
    ∧ flightBound (processQueue store s outs nowIso).2.2 0 = true := by
  unfold processQueue
  rw [h]
  by_cases hq : s.downloadQueue.isEmpty
  · have hnil : s.downloadQueue = [] := List.isEmpty_iff.mp hq
    simp [hq, hnil, flightBound]
  · have hspec := drainLoop_spec nowIso s.downloadQueue outs store
      { s with isProcessing := true }
    simp only [Bool.false_or, hq, if_false]
    exact ⟨hspec.1, hspec.2.1⟩

/-- Witness for C2: a two-item queue with one success and one rejection. -/
theorem c2_sequential_drain_witness :
    ((processQueue
        [fun k => if k == "id" then some (.str "1") else
            if k == "videoId" then some (.str "v1") else none,
         fun k => if k == "id" then some (.str "2") else
            if k == "videoId" then some (.str "v2") else none]
        { downloadQueue :=
            [fun k => if k == "id" then some (.str "1") else
                if k == "videoId" then some (.str "v1") else none,
             fun k => if k == "id" then some (.str "2") else
                if k == "videoId" then some (.str "v2") else none]
          isProcessing := false, currentDownload := none
          completedDownloads := 0, failedDownloads := 0, totalDownloads := 2 }
        [.ok ⟨"/d/v1.mp4", "v1.mp4", some 10485760, none⟩, .reject]
        "2024-01-01T00:00:00.000Z").2.2.filter isCoreEv
      = [.start "v1", .settle "v1", .delayEv 1000,
         .start "v2", .settle "v2", .delayEv 1000])
    ∧ flightBound (processQueue
        [fun k => if k == "id" then some (.str "1") else
            if k == "videoId" then some (.str "v1") else none,
         fun k => if k == "id" then some (.str "2") else
            if k == "videoId" then some (.str "v2") else none]
        { downloadQueue :=
            [fun k => if k == "id" then some (.str "1") else
                if k == "videoId" then some (.str "v1") else none,
             fun k => if k == "id" then some (.str "2") else
                if k == "videoId" then some (.str "v2") else none]
          isProcessing := false, currentDownload := none
          completedDownloads := 0, failedDownloads := 0, totalDownloads := 2 }
        [.ok ⟨"/d/v1.mp4", "v1.mp4", some 10485760, none⟩, .reject]
        "2024-01-01T00:00:00.000Z").2.2 0 = true := by
  have h := c2_sequential_drain
    [fun k => if k == "id" then some (.str "1") else
        if k == "videoId" then some (.str "v1") else none,
     fun k => if k == "id" then some (.str "2") else
        if k == "videoId" then some (.str "v2") else none]
    { downloadQueue :=
        [fun k => if k == "id" then some (.str "1") else
            if k == "videoId" then some (.str "v1") else none,
         fun k => if k == "id" then some (.str "2") else
            if k == "videoId" then some (.str "v2") else none]
      isProcessing := false, currentDownload := none
      completedDownloads := 0, failedDownloads := 0, totalDownloads := 2 }
    [.ok ⟨"/d/v1.mp4", "v1.mp4", some 10485760, none⟩, .reject]
    "2024-01-01T00:00:00.000Z" rfl
  refine ⟨?_, h.2⟩
  rw [h.1]
  rfl

/-! ### C4: failure isolation and aggregate counts -/

/-- C4: a drain started from a fresh scan state processes every queued item
to a terminal outcome — one failure never aborts the loop — and ends with a
completion event whose aggregate counts satisfy completed + failed = total;
concretely, for a three-item queue whose second item rejects while items
one and three succeed, the final state and completion event report two
completed, one failed, three total, the second record is marked `failed`
in the store and the first and third are marked `completed`. -/
theorem c4_failure_isolation :
    (∀ (store : List JObj) (s : BDSState) (outs : List DLOutcome) (nowIso : String),
      s.isProcessing = false → s.completedDownloads = 0 → s.failedDownloads = 0 →
      s.totalDownloads = s.downloadQueue.length →
      ((processQueue store s outs nowIso).2.1.completedDownloads
          + (processQueue store s outs nowIso).2.1.failedDownloads
          = (processQueue store s outs nowIso).2.1.totalDownloads)
      ∧ (s.downloadQueue ≠ [] →
          ∃ pre, (processQueue store s outs nowIso).2.2 = pre ++
            [Ev.completeEvent (processQueue store s outs nowIso).2.1.completedDownloads
              (processQueue store s outs nowIso).2.1.failedDownloads
              (processQueue store s outs nowIso).2.1.totalDownloads]))
    ∧ ((let q : List JObj :=
          [fun k => if k == "id" then some (.str "1") else
              if k == "videoId" then some (.str "v1") else none,
           fun k => if k == "id" then some (.str "2") else
              if k == "videoId" then some (.str "v2") else none,
           fun k => if k == "id" then some (.str "3") else
              if k == "videoId" then some (.str "v3") else none];
        let r := processQueue q
          { downloadQueue := q, isProcessing := false, currentDownload := none
            completedDownloads := 0, failedDownloads := 0, totalDownloads := 3 }
          [.ok ⟨"/d/v1.mp4", "v1.mp4", some 10485760, none⟩, .reject,
           .ok ⟨"/d/v3.mp4", "v3.mp4", some 10485760, none⟩]
          "2024-01-01T00:00:00.000Z";
        (r.2.1.completedDownloads, r.2.1.failedDownloads, r.2.1.totalDownloads,
         r.2.2.getLast?,
         (r.1.find? (idMatches "1")).map (fun it => it "downloadStatus"),
         (r.1.find? (idMatches "2")).map (fun it => it "downloadStatus"),
         (r.1.find? (idMatches "3")).map (fun it => it "downloadStatus")))
      = (2, 1, 3, some (.completeEvent 2 1 3),
         some (some (.str "completed")), some (some (.str "failed")),
         some (some (.str "completed")))) := by
  constructor
  · intro store s outs nowIso hp hc hf ht
    by_cases hq : s.downloadQueue.isEmpty
    · have hnil : s.downloadQueue = [] := List.isEmpty_iff.mp hq
      have hpq : processQueue store s outs nowIso = (store, s, []) := by
        unfold processQueue
        rw [hp, hq]
        simp
      rw [hpq]
      constructor
      · rw [hc, hf, ht, hnil]
        rfl
      · intro hne
        exact absurd hnil hne
    · have hq2 : s.downloadQueue.isEmpty = false := by
        simpa using hq
      have hpq : processQueue store s outs nowIso
          = drainLoop nowIso s.downloadQueue outs store { s with isProcessing := true } := by
        unfold processQueue
        rw [hp, hq2]
        simp
      rw [hpq]
      have hspec := drainLoop_spec nowIso s.downloadQueue outs store
        { s with isProcessing := true }
      obtain ⟨h1, h2, h3, h4, h5, h6⟩ := hspec
      constructor
      · rw [h3, h4]
        simp only [hc, hf, ht.symm]
        omega
      · intro hne
        exact h6
  · rfl

/-- Witness for the universal part of C4 at the concrete three-item
scenario of the claim. -/
theorem c4_failure_isolation_witness :
    (processQueue
        [fun k => if k == "id" then some (.str "1") else
            if k == "videoId" then some (.str "v1") else none,
         fun k => if k == "id" then some (.str "2") else
            if k == "videoId" then some (.str "v2") else none,
         fun k => if k == "id" then some (.str "3") else
            if k == "videoId" then some (.str "v3") else none]
        { downloadQueue :=
            [fun k => if k == "id" then some (.str "1") else
                if k == "videoId" then some (.str "v1") else none,
             fun k => if k == "id" then some (.str "2") else
                if k == "videoId" then some (.str "v2") else none,
             fun k => if k == "id" then some (.str "3") else
                if k == "videoId" then some (.str "v3") else none]
          isProcessing := false, currentDownload := none
          completedDownloads := 0, failedDownloads := 0, totalDownloads := 3 }
        [.ok ⟨"/d/v1.mp4", "v1.mp4", some 10485760, none⟩, .reject,
         .ok ⟨"/d/v3.mp4", "v3.mp4", some 10485760, none⟩]
        "2024-01-01T00:00:00.000Z").2.1.completedDownloads
      + (processQueue
        [fun k => if k == "id" then some (.str "1") else
            if k == "videoId" then some (.str "v1") else none,
         fun k => if k == "id" then some (.str "2") else
            if k == "videoId" then some (.str "v2") else none,
         fun k => if k == "id" then some (.str "3") else
            if k == "videoId" then some (.str "v3") else none]
        { downloadQueue :=
            [fun k => if k == "id" then some (.str "1") else
                if k == "videoId" then some (.str "v1") else none,
             fun k => if k == "id" then some (.str "2") else
                if k == "videoId" then some (.str "v2") else none,
             fun k => if k == "id" then some (.str "3") else
                if k == "videoId" then some (.str "v3") else none]
          isProcessing := false, currentDownload := none
          completedDownloads := 0, failedDownloads := 0, totalDownloads := 3 }
        [.ok ⟨"/d/v1.mp4", "v1.mp4", some 10485760, none⟩, .reject,
         .ok ⟨"/d/v3.mp4", "v3.mp4", some 10485760, none⟩]
        "2024-01-01T00:00:00.000Z").2.1.failedDownloads
      = (processQueue
        [fun k => if k == "id" then some (.str "1") else
            if k == "videoId" then some (.str "v1") else none,
         fun k => if k == "id" then some (.str "2") else
            if k == "videoId" then some (.str "v2") else none,
         fun k => if k == "id" then some (.str "3") else
            if k == "videoId" then some (.str "v3") else none]
        { downloadQueue :=
            [fun k => if k == "id" then some (.str "1") else
                if k == "videoId" then some (.str "v1") else none,
             fun k => if k == "id" then some (.str "2") else
                if k == "videoId" then some (.str "v2") else none,
             fun k => if k == "id" then some (.str "3") else
                if k == "videoId" then some (.str "v3") else none]
          isProcessing := false, currentDownload := none
          completedDownloads := 0, failedDownloads := 0, totalDownloads := 3 }
        [.ok ⟨"/d/v1.mp4", "v1.mp4", some 10485760, none⟩, .reject,
         .ok ⟨"/d/v3.mp4", "v3.mp4", some 10485760, none⟩]
        "2024-01-01T00:00:00.000Z").2.1.totalDownloads :=
  (c4_failure_isolation.1
    [fun k => if k == "id" then some (.str "1") else
        if k == "videoId" then some (.str "v1") else none,
     fun k => if k == "id" then some (.str "2") else
        if k == "videoId" then some (.str "v2") else none,
     fun k => if k == "id" then some (.str "3") else
        if k == "videoId" then some (.str "v3") else none]
    { downloadQueue :=
        [fun k => if k == "id" then some (.str "1") else
            if k == "videoId" then some (.str "v1") else none,
         fun k => if k == "id" then some (.str "2") else
            if k == "videoId" then some (.str "v2") else none,
         fun k => if k == "id" then some (.str "3") else
            if k == "videoId" then some (.str "v3") else none]
      isProcessing := false, currentDownload := none
      completedDownloads := 0, failedDownloads := 0, totalDownloads := 3 }
    [.ok ⟨"/d/v1.mp4", "v1.mp4", some 10485760, none⟩, .reject,
     .ok ⟨"/d/v3.mp4", "v3.mp4", some 10485760, none⟩]
    "2024-01-01T00:00:00.000Z" rfl rfl rfl rfl).1

/-! ### C3: scan classification and the empty-queue case -/

/-- C3: the scan classifies an item as needing download exactly as the
specification states (truthy media id and: non-terminal or failed status,
or absent file path, or file check rejection); the drain queue is the
needing-download items in original order; a library whose items all have
`completed` status and a passing file yields an empty queue; and on an
empty queue the sweep emits a single zero-work completion event, leaves
the service state and the store untouched, and invokes no download
operation. -/
theorem c3_scan_classification :
    (∀ (fileOk : String → Bool) (item : JObj),
      (jsTruthy (item "videoId") && needsDownload fileOk item)
        = needsDownloadSpec fileOk item)
    ∧ (∀ (fileOk : String → Bool) (items : List JObj),
      collectMissingVideos fileOk items = items.filter (needsDownloadSpec fileOk))
    ∧ (∀ (fileOk : String → Bool) (items : List JObj),
      (∀ item ∈ items, item "downloadStatus" = some (.str "completed")
        ∧ jsTruthy (item "filePath") = true
        ∧ fileOk (getStr (item "filePath")) = true) →
      items.filter (needsDownloadSpec fileOk) = [])
    ∧ (∀ (store : List JObj) (s : BDSState) (fileOk : String → Bool)
        (items : List JObj) (outs : List DLOutcome) (nowIso : String),
      items.filter (needsDownloadSpec fileOk) = [] →
        startSweep store s fileOk items outs nowIso
          = (store, s, [Ev.completeEvent 0 0 0])) := by
  have h1 : ∀ (fileOk : String → Bool) (item : JObj),
      (jsTruthy (item "videoId") && needsDownload fileOk item)
        = needsDownloadSpec fileOk item := by
    intro fileOk item
    unfold needsDownload needsDownloadSpec
    generalize (item "downloadStatus" == some (Val.str "failed")
        || item "downloadStatus" == some (Val.str "downloading")
        || item "downloadStatus" == some (Val.str "pending")) = a
    generalize jsTruthy (item "filePath") = t
    generalize fileOk (getStr (item "filePath")) = f
    cases a <;> cases t <;> cases f <;> simp
  have h2 : ∀ (fileOk : String → Bool) (items : List JObj),
      collectMissingVideos fileOk items = items.filter (needsDownloadSpec fileOk) := by
    intro fileOk items
    unfold collectMissingVideos
    exact List.filter_congr (fun item _ => h1 fileOk item)
  refine ⟨h1, h2, ?_, ?_⟩
  · intro fileOk items hall
    rw [List.filter_eq_nil_iff]
    intro item hmem
    obtain ⟨hst, hfp, hok⟩ := hall item hmem
    simp [needsDownloadSpec, hst, hfp, hok]
  · intro store s fileOk items outs nowIso hempty
    have hmiss : collectMissingVideos fileOk items = [] := by
      rw [h2]; exact hempty
    unfold startSweep startBackgroundDownloads
    simp [hmiss]

/-- Witness for C3: a singleton healthy library (completed status, passing
file) produces an empty queue and the zero-work completion event. -/
theorem c3_scan_classification_witness :
    startSweep []
      { downloadQueue := [], isProcessing := false, currentDownload := none
        completedDownloads := 0, failedDownloads := 0, totalDownloads := 0 }
      (fun _ => true)
      [fun k => if k == "videoId" then some (.str "v1") else
          if k == "downloadStatus" then some (.str "completed") else
          if k == "filePath" then some (.str "/d/v1.mp4") else none]
      [] "2024-01-01T00:00:00.000Z"
      = ([],
         { downloadQueue := [], isProcessing := false, currentDownload := none
           completedDownloads := 0, failedDownloads := 0, totalDownloads := 0 },
         [Ev.completeEvent 0 0 0]) := by
  apply c3_scan_classification.2.2.2
  apply c3_scan_classification.2.2.1
  intro item hmem
  simp only [List.mem_singleton] at hmem
  subst hmem
  exact ⟨rfl, rfl, rfl⟩

/-! ### C6: downloadStatus transition discipline -/

/-- C6 counterexample: adding an item that supplies a file path whose file
fails validation (here a 10-byte file) creates the record with initial
`downloadStatus` `failed` — neither `pending` nor `completed` — so the
exception clause of the claim (initial status is pending, or completed
when a usable file is supplied) does not hold of the code. -/
theorem c6_initial_status_counterexample :
    ((((libraryAddItem []
        (fun k => if k == "filePath" then some (.str "bad.mp4") else none)
        "id1" "2024-01-01T00:00:00.000Z"
        (fun p => if p == "bad.mp4" then some 10 else none)).1.item).map
      (fun it => it "downloadStatus")) = some (some (.str "failed")))
    ∧ ((((libraryAddItem []
        (fun k => if k == "filePath" then some (.str "bad.mp4") else none)
        "id1" "2024-01-01T00:00:00.000Z"
        (fun p => if p == "bad.mp4" then some 10 else none)).1.item).map
      (fun it => it "downloadStatus")) ≠ some (some (.str "pending")))
    ∧ ((((libraryAddItem []
        (fun k => if k == "filePath" then some (.str "bad.mp4") else none)
        "id1" "2024-01-01T00:00:00.000Z"
        (fun p => if p == "bad.mp4" then some 10 else none)).1.item).map
      (fun it => it "downloadStatus")) ≠ some (some (.str "completed"))) := by
  refine ⟨?_, ?_, ?_⟩ <;> decide

/-- C6 as amended: the initial `downloadStatus` assigned at creation is
`completed` when a file path is supplied and the validator accepts it,
`failed` when a file path is supplied but the validator rejects it, and
`pending` when no file path is supplied; and in the background sweep every
write of a terminal status (`completed` or `failed`) for an item is
preceded, within the same drain iteration, by a `downloading` write for
that same item — no drain iteration reaches a terminal status without
passing through `downloading`. -/
theorem c6_status_transitions :
    (∀ (item : JObj) (newId nowIso : String) (fsSize : String → Option Nat),
      buildLibraryItem item newId nowIso fsSize "downloadStatus"
        = some (.str
          (if jsTruthy (item "filePath")
              && validateVideoFile fsSize (getStr (item "filePath"))
                  (getNum (item "fileSize"))
            then "completed"
            else if jsTruthy (item "filePath") then "failed" else "pending")))
    ∧ (∀ (store : List JObj) (s : BDSState) (item : JObj) (rest : List JObj)
        (out : DLOutcome) (nowIso : String),
        ((statusWrites (drainStep store s item rest out nowIso).2.2).head?
          = some (idOf item, "downloading"))
        ∧ (∀ w ∈ (statusWrites (drainStep store s item rest out nowIso).2.2).tail,
            w.1 = idOf item ∧ (w.2 = "completed" ∨ w.2 = "failed"))) := by
  constructor
  · intro item newId nowIso fsSize
    rfl
  · intro store s item rest out nowIso
    cases out with
    | ok r =>
      constructor
      · simp only [drainStep]
        split <;> simp [statusWrites]
      · simp only [drainStep]
        split <;> simp [statusWrites]
    | fail =>
      constructor
      · simp [drainStep, statusWrites]
      · simp [drainStep, statusWrites]
    | reject =>
      constructor
      · simp [drainStep, statusWrites]
      · simp [drainStep, statusWrites]

/-- Witness for the amended C6: an added item with no file starts
`pending`, and a drain iteration on a failing download writes
`downloading` first. -/
theorem c6_status_transitions_witness :
    (buildLibraryItem (fun _ => none) "id9" "2024-01-01T00:00:00.000Z"
        (fun _ => none) "downloadStatus" = some (.str "pending"))
    ∧ ((statusWrites (drainStep []
        (BDSState.mk [] true none 0 0 1)
        (fun k => if k == "id" then some (.str "7") else none)
        [] .fail "2024-01-01T00:00:00.000Z").2.2).head?
      = some (idOf (fun k => if k == "id" then some (.str "7") else none),
          "downloading")) := by
  constructor
  · have h := c6_status_transitions.1 (fun _ => none) "id9"
      "2024-01-01T00:00:00.000Z" (fun _ => none)
    simpa using h
  · exact (c6_status_transitions.2 []
      (BDSState.mk [] true none 0 0 1)
      (fun k => if k == "id" then some (.str "7") else none)
      [] .fail "2024-01-01T00:00:00.000Z").1

/-! ### C7: starting a sweep while one is draining -/

/-- C7 counterexample: with a sweep mid-drain (one item completed out of
two, one still queued), a second start request whose rescan finds one
needing item resets the completed counter from 1 to 0 and the total
counter from 2 to 1 — the request is not a no-op on the counters (nor on
the remaining queue, which it replaces), contradicting the claim. -/
theorem c7_start_while_draining_counterexample :
    ((startSweep []
        (BDSState.mk [fun k => if k == "id" then some (.str "b") else none]
          true (some (fun k => if k == "id" then some (.str "a") else none)) 1 0 2)
        (fun _ => true)
        [fun k => if k == "videoId" then some (.str "vc") else none]
        [] "2024-01-01T00:00:00.000Z").2.1.completedDownloads
      ≠ (BDSState.mk [fun k => if k == "id" then some (.str "b") else none]
          true (some (fun k => if k == "id" then some (.str "a") else none)) 1 0 2).completedDownloads)
    ∧ ((startSweep []
        (BDSState.mk [fun k => if k == "id" then some (.str "b") else none]
          true (some (fun k => if k == "id" then some (.str "a") else none)) 1 0 2)
        (fun _ => true)
        [fun k => if k == "videoId" then some (.str "vc") else none]
        [] "2024-01-01T00:00:00.000Z").2.1.totalDownloads
      ≠ (BDSState.mk [fun k => if k == "id" then some (.str "b") else none]
          true (some (fun k => if k == "id" then some (.str "a") else none)) 1 0 2).totalDownloads) := by
  constructor <;> decide

/-- C7 as amended: a start request while a sweep is draining never begins
a second concurrent drain loop — the queue processor returns immediately,
so the request contributes no download invocation, settlement or delay
event — and it leaves the store, the in-flight item and the draining flag
unchanged; it does, however, rescan and replace the drain queue and reset
the counters (see the counterexample). -/
theorem c7_no_second_drain (store : List JObj) (s : BDSState)
    (fileOk : String → Bool) (items : List JObj) (outs : List DLOutcome)
    (nowIso : String) (h : s.isProcessing = true) :
    ((startSweep store s fileOk items outs nowIso).2.2.filter isCoreEv = [])
    ∧ (startSweep store s fileOk items outs nowIso).1 = store
    ∧ (startSweep store s fileOk items outs nowIso).2.1.currentDownload
        = s.currentDownload
    ∧ (startSweep store s fileOk items outs nowIso).2.1.isProcessing = true := by
  unfold startSweep startBackgroundDownloads processQueue
  by_cases hm : (collectMissingVideos fileOk items).isEmpty
  · simp [hm, h, isCoreEv]
  · simp [hm, h, isCoreEv]

/-- Witness for the amended C7 at a concrete draining state. -/
theorem c7_no_second_drain_witness :
    ((startSweep [] (BDSState.mk [] true none 1 0 2) (fun _ => true)
        [fun k => if k == "videoId" then some (.str "vc") else none]
        [] "2024-01-01T00:00:00.000Z").2.2.filter isCoreEv = [])
    ∧ (startSweep [] (BDSState.mk [] true none 1 0 2) (fun _ => true)
        [fun k => if k == "videoId" then some (.str "vc") else none]
        [] "2024-01-01T00:00:00.000Z").1 = []
    ∧ (startSweep [] (BDSState.mk [] true none 1 0 2) (fun _ => true)
        [fun k => if k == "videoId" then some (.str "vc") else none]
        [] "2024-01-01T00:00:00.000Z").2.1.currentDownload
      = (BDSState.mk [] true none 1 0 2).currentDownload
    ∧ (startSweep [] (BDSState.mk [] true none 1 0 2) (fun _ => true)
        [fun k => if k == "videoId" then some (.str "vc") else none]
        [] "2024-01-01T00:00:00.000Z").2.1.isProcessing = true :=
  c7_no_second_drain [] (BDSState.mk [] true none 1 0 2) (fun _ => true)
    [fun k => if k == "videoId" then some (.str "vc") else none]
    [] "2024-01-01T00:00:00.000Z" rfl
